import Mathlib

/-
Shallow embedding of the micro-bookstore gateway (services/controller/index.js),
the inventory lookup added by Practical Task 1 (README, SearchProductByID and
the /product/:id route), and the front-end script (newBook, calculateShipping).
The shipping and inventory service bodies that are absent from the sources are
modelled from the specification where needed and marked as such.
-/

namespace MicroBookstore

/-- Product record, after proto/inventory.proto ProductResponse:
int32 id, string name, int32 quantity, float price, string photo, string author. -/
structure Product where
  id : Int
  name : String
  quantity : Int
  price : Rat
  photo : String
  author : String
deriving Repr, DecidableEq

/-- A gRPC error value as delivered to the controller callbacks (first callback
argument when non-null). Fields stand for the backend-internal detail the spec
says must never reach the client: a numeric code, a detail text, a stack trace. -/
structure GrpcError where
  code : Int
  details : String
  stack : String
deriving Repr, DecidableEq

/-- proto/inventory.proto ProductsResponse: repeated ProductResponse products. -/
structure ProductsResponse where
  products : List Product
deriving Repr, DecidableEq

/-- proto/shipping.proto ShippingResponse: the computed shipping cost, field value. -/
structure ShippingResponse where
  value : Rat
deriving Repr, DecidableEq

/-- The JSON bodies the controller can send to the client: res.status(500).send
with an error object, res.json of a product array, res.json of a cep/value
object, and res.json of a product that may be undefined. -/
inductive JsonBody where
  | objError (message : String)
  | arrProducts (ps : List Product)
  | objShipping (cep : String) (value : Rat)
  | objProduct (p : Option Product)
deriving Repr, DecidableEq

/-- A client-visible HTTP response of the gateway: status code plus JSON body. -/
structure HttpResponse where
  status : Nat
  body : JsonBody
deriving Repr, DecidableEq

/-- Callback body of app.get on /products (services/controller/index.js lines
12 to 21), as a function of the SearchAllProducts callback outcome, which in the
source arrives as the pair (err, data). It returns the client response together
with the list of error values passed to console.error, the server-side log. -/
def productsRoute (outcome : Except GrpcError ProductsResponse) :
    HttpResponse × List GrpcError :=
  match outcome with
  | Except.error err => ({ status := 500, body := JsonBody.objError "something failed :(" }, [err])
  | Except.ok data => ({ status := 200, body := JsonBody.arrProducts data.products }, [])

/-- Callback body of app.get on /shipping/:zipcode (services/controller/index.js
lines 26 to 43), as a function of the request parameter req.params.zipcode and
of the GetShippingRate callback outcome. On success the source builds the body
from req.params.zipcode (field cep) and data.value (field value). -/
def shippingRoute (zipcode : String) (outcome : Except GrpcError ShippingResponse) :
    HttpResponse × List GrpcError :=
  match outcome with
  | Except.error err => ({ status := 500, body := JsonBody.objError "something failed :(" }, [err])
  | Except.ok data => ({ status := 200, body := JsonBody.objShipping zipcode data.value }, [])

/-- Callback body of app.get on /product/:id (README Practical Task 1, Step 4):
on error it sends the same generic 500 body; otherwise res.json(product), where
product is whatever the inventory service produced, possibly undefined. -/
def productByIdRoute (outcome : Except GrpcError (Option Product)) :
    HttpResponse × List GrpcError :=
  match outcome with
  | Except.error err => ({ status := 500, body := JsonBody.objError "something failed :(" }, [err])
  | Except.ok product => ({ status := 200, body := JsonBody.objProduct product }, [])

/-- Inventory handler SearchProductByID (README Practical Task 1, Step 3):
callback(null, products.find(product to product.id == payload.request.id)).
The callback error argument is always null; the data argument is the first
product in load order whose id equals the requested id, or undefined. -/
def SearchProductByID (products : List Product) (id : Int) :
    Except GrpcError (Option Product) :=
  Except.ok (products.find? (fun product => product.id == id))

/-- Modelled from the spec: the body of SearchAllProducts in
services/inventory/index.js is not among the sources; section 4.1 states that
ListAll returns every product currently loaded, in load order, and never fails. -/
def ListAll (products : List Product) : Except GrpcError ProductsResponse :=
  Except.ok { products := products }

/-- Modelled from the spec: the body of GetShippingRate in
services/shipping/index.js is not among the sources; section 4.2 states that
Quote is one fixed, documented, deterministic pure function of the postal code,
for example a cost derived from the digits of the code. -/
def Quote (postalCode : String) : Rat :=
  (((postalCode.toList.filter (fun c => c.isDigit)).map
      (fun c => ((c.toNat : Int) - 48))).foldl (fun a d => a + (d : Rat)) 0) / 10 + 3

/-- Untyped description of one backend RPC issued by the gateway. -/
inductive BackendCall where
  | searchAllProducts
  | getShippingRate (zipcode : String)
  | searchProductByID (id : Int)
deriving Repr, DecidableEq

/-- Typed backend RPC: the index gives the success payload type of the call. -/
inductive BCall : Type → Type where
  | searchAllProducts : BCall ProductsResponse
  | getShippingRate (zipcode : String) : BCall ShippingResponse
  | searchProductByID (id : Int) : BCall (Option Product)

/-- Forgets the payload type of a typed backend call. -/
def BCall.desc : BCall β → BackendCall
  | BCall.searchAllProducts => BackendCall.searchAllProducts
  | BCall.getShippingRate z => BackendCall.getShippingRate z
  | BCall.searchProductByID i => BackendCall.searchProductByID i

/-- A route handler body as a small program: it either responds to the client,
or issues one backend call and continues from the callback outcome. This mirrors
the callback structure of the Express handlers verbatim. -/
inductive Prog (α : Type) : Type 1 where
  | respond (r : α) : Prog α
  | call {β : Type} (c : BCall β) (k : Except GrpcError β → Prog α) : Prog α

/-- A backend environment: how each call would be answered. -/
def Oracle := ∀ β : Type, BCall β → Except GrpcError β

/-- Runs a handler program against a backend environment, recording the list of
backend calls issued, in order. -/
def runProg (oracle : Oracle) : Prog α → α × List BackendCall
  | Prog.respond r => (r, [])
  | Prog.call c k =>
      let rest := runProg oracle (k (oracle _ c))
      (rest.1, BCall.desc c :: rest.2)

/-- The /products handler (services/controller/index.js lines 12 to 21): one
call to inventory.SearchAllProducts, then the response from its callback. -/
def productsProg : Prog (HttpResponse × List GrpcError) :=
  Prog.call BCall.searchAllProducts (fun outcome => Prog.respond (productsRoute outcome))

/-- The /shipping/:zipcode handler (services/controller/index.js lines 26 to 43):
one call to shipping.GetShippingRate with the request zipcode, then the response
from its callback. -/
def shippingProg (zipcode : String) : Prog (HttpResponse × List GrpcError) :=
  Prog.call (BCall.getShippingRate zipcode)
    (fun outcome => Prog.respond (shippingRoute zipcode outcome))

/-- The /product/:id handler (README Practical Task 1, Step 4): one call to
inventory.SearchProductByID with the request id, then the response from its
callback. -/
def productByIdProg (id : Int) : Prog (HttpResponse × List GrpcError) :=
  Prog.call (BCall.searchProductByID id)
    (fun outcome => Prog.respond (productByIdRoute outcome))

/-- The real backend environment over a loaded catalog: inventory lookups are
answered by the embedded inventory handlers, rate requests by Quote. -/
def backendOracle (products : List Product) : Oracle :=
  fun _ c =>
    match c with
    | BCall.searchAllProducts => ListAll products
    | BCall.getShippingRate z => Except.ok { value := Quote z }
    | BCall.searchProductByID i => SearchProductByID products i

/-- A three-product catalog with ids 1, 2, 3, as in end-to-end scenario 1. -/
def demoProducts : List Product :=
  [ { id := 1, name := "Software Engineering", quantity := 10, price := 45, photo := "se.jpg", author := "M. Valente" }
  , { id := 2, name := "Clean Architecture", quantity := 3, price := 30, photo := "ca.jpg", author := "R. Martin" }
  , { id := 3, name := "Refactoring", quantity := 7, price := 50, photo := "rf.jpg", author := "M. Fowler" } ]

/-- Per-process state of the Rate Calculator. The spec gives it no hidden
state, so the state type carries no data. -/
def RateCalcState := Unit

/-- One invocation of Quote in state-passing form: it returns the computed cost
and the (unchanged) service state. -/
def QuoteCall (s : RateCalcState) (postalCode : String) : Rat × RateCalcState :=
  (Quote postalCode, s)

/-- Cross-request state of the controller process: every top-level binding of
services/controller/index.js is a constant (express, shipping, inventory, cors,
app) and no handler assigns anything that outlives its request, so the state
type carries no data. -/
def GatewayState := Unit

/-- An inbound client request to one of the gateway routes, with its request
parameters. -/
inductive GatewayRequest where
  | products
  | shipping (zipcode : String)
  | productById (id : Int)
deriving Repr, DecidableEq

/-- Route dispatch: which handler program serves which request. -/
def routeProg : GatewayRequest → Prog (HttpResponse × List GrpcError)
  | GatewayRequest.products => productsProg
  | GatewayRequest.shipping z => shippingProg z
  | GatewayRequest.productById i => productByIdProg i

/-- Handling of one request by the gateway, threading the cross-request state:
the handler runs its program against the backend and the state passes through. -/
def handleRequest (s : GatewayState) (req : GatewayRequest) (oracle : Oracle) :
    ((HttpResponse × List GrpcError) × List BackendCall) × GatewayState :=
  (runProg oracle (routeProg req), s)

/-- Handling of a whole sequence of requests, each to completion in arrival
order, threading the cross-request state through all of them. -/
def handleSequence (oracle : Oracle) (s : GatewayState) :
    List GatewayRequest → List ((HttpResponse × List GrpcError) × List BackendCall) × GatewayState
  | [] => ([], s)
  | req :: reqs =>
      let step := handleRequest s req oracle
      let rest := handleSequence oracle step.2 reqs
      (step.1 :: rest.1, rest.2)

/-- Outcome of running the front-end function calculateShipping: either a
reference error thrown while evaluating the URL expression, before fetch runs,
or the URL the fetch call is issued with. -/
inductive JsOutcome where
  | referenceError (name : String)
  | requestIssued (url : String)
deriving Repr, DecidableEq

/-- The string-valued bindings in scope in the body of calculateShipping(id,
cep): exactly its two parameters. The front-end script declares zipcode only as
a const inside the click-listener callback of the DOMContentLoaded handler, a
different scope; no global zipcode exists. -/
def calculateShippingEnv (id cep : String) : List (String × String) :=
  [("id", id), ("cep", cep)]

/-- Front-end calculateShipping(id, cep): it evaluates the URL expression by
resolving the identifier zipcode against the scope of the function body; an
unresolved identifier throws a ReferenceError before any request is issued. -/
def calculateShipping (id cep : String) : JsOutcome :=
  match (calculateShippingEnv id cep).lookup "zipcode" with
  | some v => JsOutcome.requestIssued ("http://localhost:3000/shipping/" ++ v)
  | none => JsOutcome.referenceError "zipcode"

/-- JS Number.toFixed(2) on the nonnegative catalog prices: round to two
decimal places and print with exactly two fraction digits. -/
def toFixed2 (q : Rat) : String :=
  let c : Int := round (q * 100)
  let frac := (c % 100).natAbs
  toString (c / 100) ++ "." ++ (if frac < 10 then "0" else "") ++ toString frac

/-- The div element returned by the front-end function newBook: its className
and its innerHTML markup. -/
structure DomDiv where
  className : String
  innerHTML : String
deriving Repr, DecidableEq

/-- The lines of the template literal assigned to div.innerHTML by the
front-end function newBook. The template interpolates book.photo, book.name,
book.id, book.price.toFixed(2) and book.author; the stock line is the fixed
text "Available in stock: 5". -/
def newBookLines (book : Product) : List String :=
      [ ""
      , "        <div class=\"card is-shady\">"
      , "            <div class=\"card-image\">"
      , "                <figure class=\"image is-4by3\">"
      , "                    <img"
      , "                        src=\"" ++ book.photo ++ "\""
      , "                        alt=\"" ++ book.name ++ "\""
      , "                        class=\"modal-button\""
      , "                    />"
      , "                </figure>"
      , "            </div>"
      , "            <div class=\"card-content\">"
      , "                <div class=\"content book\" data-id=\"" ++ toString book.id ++ "\">"
      , "                    <div class=\"book-meta\">"
      , "                        <p class=\"is-size-4\">US$ " ++ toFixed2 book.price ++ "</p>"
      , "                        <p class=\"is-size-6\">Available in stock: 5</p>"
      , "                        <h4 class=\"is-size-3 title\">" ++ book.name ++ "</h4>"
      , "                        <p class=\"subtitle\">" ++ book.author ++ "</p>"
      , "                    </div>"
      , "                    <div class=\"field has-addons\">"
      , "                        <div class=\"control\">"
      , "                            <input class=\"input\" type=\"text\" placeholder=\"Enter the ZIP code\" />"
      , "                        </div>"
      , "                        <div class=\"control\">"
      , "                            <a class=\"button button-shipping is-info\" data-id=\"" ++ toString book.id ++ "\"> Calculate Shipping </a>"
      , "                        </div>"
      , "                    </div>"
      , "                    <button class=\"button button-buy is-success is-fullwidth\">Buy</button>"
      , "                </div>"
      , "            </div>"
      , "        </div>" ]

/-- Front-end newBook(book): returns a div with className "column is-4" whose
innerHTML is the card template rendered for the given catalog entry. -/
def newBook (book : Product) : DomDiv :=
  { className := "column is-4"
  , innerHTML := String.intercalate "\n" (newBookLines book) }

/-- A sample catalog entry used for concrete evaluations. -/
def demoBook : Product :=
  { id := 1, name := "Software Engineering", quantity := 10, price := 45
  , photo := "se.jpg", author := "M. Valente" }

/-- C1: whenever the backend call behind /products or behind /shipping/:zipcode
fails, the gateway answers with the one generic server-error shape, status 500
and body with the constant error text "something failed :(", whatever the
backend error value was; the error value itself appears only in the server-side
log, never in the client-visible body, which is a constant independent of it. -/
theorem c1_backend_failure_masked :
    ∀ (e : GrpcError) (z : String),
      productsRoute (Except.error e)
        = ({ status := 500, body := JsonBody.objError "something failed :(" }, [e]) ∧
      shippingRoute z (Except.error e)
        = ({ status := 500, body := JsonBody.objError "something failed :(" }, [e]) := by
  intro e z
  exact ⟨rfl, rfl⟩

/-- C2: for every postal code and every successful backend reply carrying cost
v, the /shipping/:zipcode route answers 200 with exactly the object with cep p
and value v, where cep is the request parameter echoed verbatim (the backend
reply contains only the value) and nothing is logged. -/
theorem c2_shipping_echoes_postal_code :
    ∀ (p : String) (v : Rat),
      shippingRoute p (Except.ok { value := v })
        = ({ status := 200, body := JsonBody.objShipping p v }, []) := by
  intro p v
  exact rfl

/-- C3: evaluation of the /product/:id handler, wired to the real inventory
lookup, on the catalog with ids 1, 2, 3 and the absent id 999: the response is
status 200 with an empty (undefined) product body, not a 404 not-found
response. This exhibits the divergence from the claimed behaviour. -/
theorem c3_absent_id_gets_200_empty_body :
    (runProg (backendOracle demoProducts) (productByIdProg 999)).1.1
      = { status := 200, body := JsonBody.objProduct none } := by
  rfl

/-- C4: evaluation of the inventory lookup SearchProductByID on the catalog
with ids 1, 2, 3 at the absent id 999: it invokes its callback with a null
error and an undefined product, that is, it returns a null/empty placeholder
and signals no NotFound condition; for contrast, at the present id 2 it returns
the matching product. -/
theorem c4_absent_id_no_notfound_signal :
    SearchProductByID demoProducts 999 = Except.ok none ∧
    SearchProductByID demoProducts 2
      = Except.ok (some { id := 2, name := "Clean Architecture", quantity := 3
                        , price := 30, photo := "ca.jpg", author := "R. Martin" }) := by
  exact ⟨rfl, rfl⟩

/-- C5: for every successful backend reply, the /products route answers 200
with exactly the products field of the reply, the same list element for
element, so length, order and every element are preserved and nothing is
logged. -/
theorem c5_products_passed_through_unchanged :
    ∀ (ps : List Product),
      productsRoute (Except.ok { products := ps })
        = ({ status := 200, body := JsonBody.arrProducts ps }, []) := by
  intro ps
  exact rfl

/-- C6: against every backend environment, each gateway handler issues exactly
one backend call: /products one SearchAllProducts call, /shipping/:zipcode one
GetShippingRate call with the request zipcode, /product/:id one
SearchProductByID call with the request id; never zero, never more. -/
theorem c6_exactly_one_backend_call :
    ∀ (oracle : Oracle) (z : String) (i : Int),
      (runProg oracle productsProg).2 = [BackendCall.searchAllProducts] ∧
      (runProg oracle (shippingProg z)).2 = [BackendCall.getShippingRate z] ∧
      (runProg oracle (productByIdProg i)).2 = [BackendCall.searchProductByID i] := by
  intro oracle z i
  exact ⟨rfl, rfl, rfl⟩

/-- C7: Quote is idempotent and pure: a second call with the same postal code,
made in the state left behind by the first, returns the same cost; the call
leaves the service state unchanged, and the cost is the fixed function Quote of
the postal code alone. -/
theorem c7_quote_idempotent_and_pure :
    ∀ (p : String) (s : RateCalcState),
      (QuoteCall s p).1 = (QuoteCall (QuoteCall s p).2 p).1 ∧
      (QuoteCall s p).2 = s ∧
      (QuoteCall s p).1 = Quote p := by
  intro p s
  exact ⟨rfl, rfl, rfl⟩

/-- C8: the gateway is stateless across requests: two runs of any route handler
from any two cross-request states, with the same request and the same backend
environment, give the same client-visible output; handling a request returns
the state unchanged; and over any request sequence, each response is the pure
per-request function of its own request and the backend, independent of the
history threaded through the state. -/
theorem c8_gateway_stateless :
    ∀ (oracle : Oracle) (s1 s2 : GatewayState) (req : GatewayRequest)
      (reqs : List GatewayRequest),
      (handleRequest s1 req oracle).1 = (handleRequest s2 req oracle).1 ∧
      (handleRequest s1 req oracle).2 = s1 ∧
      (handleSequence oracle s1 reqs).1
        = reqs.map (fun r => (handleRequest s1 r oracle).1) := by
  intro oracle s1 s2 req reqs
  refine ⟨rfl, rfl, ?_⟩
  induction reqs with
  | nil => rfl
  | cons r rs ih =>
      show (handleRequest s1 r oracle).1 :: (handleSequence oracle s1 rs).1 = _
      rw [List.map_cons, ih]

/-- C9: every invocation of the front-end calculateShipping(id, cep) throws a
ReferenceError on the unbound identifier zipcode before any request is issued,
and its outcome is independent of the cep argument. -/
theorem c9_calculate_shipping_reference_error :
    ∀ (id cep cep2 : String),
      calculateShipping id cep = JsOutcome.referenceError "zipcode" ∧
      calculateShipping id cep = calculateShipping id cep2 := by
  intro id cep cep2
  exact ⟨rfl, rfl⟩

/-- C10: newBook renders the quantity field of no book: any two books that
differ only in quantity produce identical div markup; and for every book the
rendered stock line is the fixed text "Available in stock: 5", so the catalog
quantity never reaches the user. -/
theorem c10_quantity_never_rendered :
    (∀ (b : Product) (q : Int), newBook { b with quantity := q } = newBook b) ∧
    (∀ (b : Product),
      "                        <p class=\"is-size-6\">Available in stock: 5</p>"
        ∈ newBookLines b) := by
  refine ⟨fun b q => rfl, fun b => ?_⟩
  simp [newBookLines]

end MicroBookstore
